import Mathlib

/-
Verification of the LineFollower repository (src/Reflectance.c, src/BumpInt.c)
against its natural-language specification.

Shallow embedding conventions:
* 8-bit MSP432 GPIO registers are modelled as `Nat`; where a C statement
  masks with the complement of an 8-bit constant (`reg &= ~0xED` on a
  `uint8_t` register), the embedding uses the 8-bit truncated complement
  (`&&& 0x12`), since `~0xED` truncated to 8 bits is `0x12`.
* `Clock_Delay1us` is an external busy-wait collaborator: it changes no
  register, and the embedding records it in an explicit trace of performed
  microsecond delays so that timing behaviour stays observable.
* C `int32_t` division truncates toward zero, which is `Int.tdiv`; the
  intermediate sums of `Reflectance_Position` are far below the `int32_t`
  range, so no wrap-around modelling is needed.
* A C division whose divisor is zero is undefined behaviour: the embedding
  of `Reflectance_Position` returns `Option Int`, with `none` marking the
  executions that reach the division with divisor `0`.
-/

namespace LineFollower

/-- Calibration weight table `w` of `Reflectance_Position`
(Reflectance.c line 155): `{-33400,-23800,-14300,-4800,4800,14300,23800,33400}`. -/
def w : List Int := [-33400, -23800, -14300, -4800, 4800, 14300, 23800, 33400]

/-- `b = (data>>i)&1` from the loop body of `Reflectance_Position`. -/
def bit (data i : Nat) : Nat := (data >>> i) &&& 1

/-- Accumulation of `weightsum += b*w[i]` over the loop `for (i = 0; i<8; i++)`
of `Reflectance_Position` (Reflectance.c lines 157-162). -/
def weightsum (data : Nat) : Int :=
  (List.range 8).foldl (fun acc i => acc + (bit data i : Int) * w.getD i 0) 0

/-- Accumulation of `bitsum += b` over the same loop. -/
def bitsum (data : Nat) : Nat :=
  (List.range 8).foldl (fun acc i => acc + bit data i) 0

/-- `Reflectance_Position` (Reflectance.c lines 151-165): the C code computes
`position = weightsum/bitsum` unconditionally; when `bitsum = 0` that is a
division by zero (undefined behaviour), modelled here as `none`.  `Int.tdiv`
is C's truncating `int32_t` division. -/
def Reflectance_Position (data : Nat) : Option Int :=
  if bitsum data = 0 then none
  else some (Int.tdiv (weightsum data) (bitsum data))

/-- Left-to-right mirror of an 8-bit snapshot: bit `i` of the result is
bit `7-i` of `data` (used to state the symmetry property of the spec). -/
def mirror (data : Nat) : Nat :=
  (List.range 8).foldl (fun acc i => acc ||| (bit data (7 - i) <<< i)) 0

/-- Device state touched by the reflectance operations: the LED-drive output
registers P5->OUT and P9->OUT, the sensor port registers P7->DIR and P7->OUT,
the environment-determined input register P7->IN, and the trace of busy-wait
delays performed (in microseconds, in order). -/
structure MCU where
  p5out : Nat
  p9out : Nat
  p7dir : Nat
  p7out : Nat
  p7in  : Nat
  trace : List Nat

/-- `Clock_Delay1us(t)`: external busy-wait collaborator; registers are
unchanged and the delay is recorded in the trace. -/
def Clock_Delay1us (t : Nat) (s : MCU) : MCU :=
  { s with trace := s.trace ++ [t] }

/-- `Reflectance_Read` (Reflectance.c lines 97-112).  `&= ~0x08` and
`&= ~0x04` on the 8-bit OUT registers are `&&& 0xF7` and `&&& 0xFB`. -/
def Reflectance_Read (time : Nat) (s : MCU) : Nat × MCU :=
  let s := { s with p5out := s.p5out ||| 0x08 }
  let s := { s with p9out := s.p9out ||| 0x04 }
  let s := { s with p7dir := 0xFF }
  let s := { s with p7out := 0xFF }
  let s := Clock_Delay1us 10 s
  let s := { s with p7dir := 0x00 }
  let s := Clock_Delay1us time s
  let result := s.p7in
  let s := { s with p5out := s.p5out &&& 0xF7 }
  let s := { s with p9out := s.p9out &&& 0xFB }
  (result, s)

/-- `Reflectance_Center` (Reflectance.c lines 130-145): same protocol as
`Reflectance_Read` but the sampled value is `(P7->IN&0x18)>>3`. -/
def Reflectance_Center (time : Nat) (s : MCU) : Nat × MCU :=
  let s := { s with p5out := s.p5out ||| 0x08 }
  let s := { s with p9out := s.p9out ||| 0x04 }
  let s := { s with p7dir := 0xFF }
  let s := { s with p7out := 0xFF }
  let s := Clock_Delay1us 10 s
  let s := { s with p7dir := 0x00 }
  let s := Clock_Delay1us time s
  let result := (s.p7in &&& 0x18) >>> 3
  let s := { s with p5out := s.p5out &&& 0xF7 }
  let s := { s with p9out := s.p9out &&& 0xFB }
  (result, s)

/-- `Reflectance_Start` (Reflectance.c lines 176-183): LED on, charge, 10 us
pulse, release the pins to inputs. -/
def Reflectance_Start (s : MCU) : MCU :=
  let s := { s with p5out := s.p5out ||| 0x08 }
  let s := { s with p9out := s.p9out ||| 0x04 }
  let s := { s with p7dir := 0xFF }
  let s := { s with p7out := 0xFF }
  let s := Clock_Delay1us 10 s
  { s with p7dir := 0x00 }

/-- `Reflectance_End` (Reflectance.c lines 194-202): sample P7->IN, LEDs off. -/
def Reflectance_End (s : MCU) : Nat × MCU :=
  let result := s.p7in
  let s := { s with p5out := s.p5out &&& 0xF7 }
  let s := { s with p9out := s.p9out &&& 0xFB }
  (result, s)

/-- Device state touched by BumpInt.c: the Port 4 registers (including the
input register P4->IN read by a completed `Bump_Read`), the NVIC priority and
enable words written by `BumpInt_Init`, and the global-interrupt-enable flag
set by `EnableInterrupts()`. -/
structure BumpState where
  p4sel0 : Nat
  p4sel1 : Nat
  p4dir  : Nat
  p4ren  : Nat
  p4out  : Nat
  p4ies  : Nat
  p4ifg  : Nat
  p4ie   : Nat
  p4in   : Nat
  nvicIp9   : Nat
  nvicIser1 : Nat
  gie : Bool

/-- `BumpInt_Init` (BumpInt.c lines 57-71).  The three `&= ~0xED` writes on
8-bit registers are `&&& 0x12`; `EnableInterrupts()` sets the global flag. -/
def BumpInt_Init (s : BumpState) : BumpState :=
  let s := { s with p4sel0 := s.p4sel0 &&& 0x12 }
  let s := { s with p4sel1 := s.p4sel1 &&& 0x12 }
  let s := { s with p4dir := s.p4dir &&& 0x12 }
  let s := { s with p4ren := s.p4ren ||| 0xED }
  let s := { s with p4out := s.p4out ||| 0xED }
  let s := { s with p4ies := s.p4ies ||| 0xED }
  let s := { s with p4ifg := s.p4ifg &&& 0x12 }
  let s := { s with p4ie := s.p4ie ||| 0xED }
  let s := { s with nvicIp9 := (s.nvicIp9 &&& 0xFF0FFFFF) ||| 0x00200000 }
  let s := { s with nvicIser1 := 0x00000040 }
  { s with gie := true }

/-- `Bump_Read` (BumpInt.c lines 80-84): the body is the stub
`return 0;` - it reads no pin state at all. -/
def Bump_Read (s : BumpState) : Nat := 0

/-- Sample device state used to instantiate hypotheses at concrete inputs. -/
def sampleMCU : MCU :=
  { p5out := 0, p9out := 0, p7dir := 0, p7out := 0, p7in := 0x18, trace := [] }

/-- Sample Port 4 / NVIC state used to instantiate hypotheses at concrete
inputs. -/
def sampleBump : BumpState :=
  { p4sel0 := 0xFF, p4sel1 := 0x12, p4dir := 0xFF, p4ren := 0, p4out := 0,
    p4ies := 0x55, p4ifg := 0xFF, p4ie := 0, p4in := 0xED,
    nvicIp9 := 0, nvicIser1 := 0, gie := false }

/- Helper lemmas (exhaustive checks over the 256 possible 8-bit snapshots,
and generic bit-preservation facts). -/

set_option maxRecDepth 4000 in
/-- Bit `i` of `mirror data` is bit `7-i` of `data`, for 8-bit snapshots. -/
theorem mirror_testBit : ∀ x : Fin 256, ∀ i : Fin 8,
    (mirror x.val).testBit i.val = x.val.testBit (7 - i.val) := by decide

set_option maxRecDepth 4000 in
/-- Mirroring an 8-bit snapshot yields an 8-bit snapshot. -/
theorem mirror_lt : ∀ x : Fin 256, mirror x.val < 256 := by decide

set_option maxRecDepth 4000 in
set_option maxHeartbeats 1000000 in
/-- Exhaustive check: mirroring negates the position on every nonzero
8-bit snapshot. -/
theorem pos_mirror_aux : ∀ x : Fin 256, x.val ≠ 0 →
    Reflectance_Position (mirror x.val) =
      (Reflectance_Position x.val).map (fun z => -z) := by decide

set_option maxRecDepth 4000 in
set_option maxHeartbeats 1000000 in
/-- Exhaustive check: on every nonzero 8-bit snapshot the position is defined
and lies in [-33400, 33400]. -/
theorem pos_range_aux : ∀ x : Fin 256, x.val ≠ 0 →
    (Reflectance_Position x.val).isSome = true ∧
    -33400 ≤ (Reflectance_Position x.val).getD 0 ∧
    (Reflectance_Position x.val).getD 0 ≤ 33400 := by decide

set_option maxRecDepth 4000 in
/-- Exhaustive case analysis of the two-bit code `(x & 0x18) >> 3`. -/
theorem center_code_aux : ∀ x : Fin 256,
    (((x.val &&& 0x18) >>> 3 = 0) ↔
      (x.val.testBit 3 = false ∧ x.val.testBit 4 = false)) ∧
    (((x.val &&& 0x18) >>> 3 = 1) ↔
      (x.val.testBit 3 = true ∧ x.val.testBit 4 = false)) ∧
    (((x.val &&& 0x18) >>> 3 = 2) ↔
      (x.val.testBit 3 = false ∧ x.val.testBit 4 = true)) ∧
    (((x.val &&& 0x18) >>> 3 = 3) ↔
      (x.val.testBit 3 = true ∧ x.val.testBit 4 = true)) := by decide

/-- Masking with `&&&` preserves every bit that is set in the mask. -/
theorem testBit_and_eq {m k : Nat} (x : Nat) (h : m.testBit k = true) :
    (x &&& m).testBit k = x.testBit k := by
  rw [Nat.testBit_land, h, Bool.and_true]

/-- Setting bits with `|||` preserves every bit that is clear in the mask. -/
theorem testBit_or_eq {m k : Nat} (x : Nat) (h : m.testBit k = false) :
    (x ||| m).testBit k = x.testBit k := by
  rw [Nat.testBit_lor, h, Bool.or_false]

/- Claim theorems. -/

/-- C1: the reference code guards nothing: on the all-zero snapshot it
reaches `position = weightsum/bitsum` with `bitsum = 0`, a silent division
by zero (undefined behaviour in C), recorded by the embedding as `none` -
neither a defined fault nor an explicit sentinel value. -/
theorem C1_position_zero_snapshot_divides_by_zero :
    bitsum 0 = 0 ∧ Reflectance_Position 0 = none := by decide

/-- C2: for every nonzero 8-bit snapshot `d`, if `m` is the snapshot whose
bit `i` is set exactly when bit `7-i` of `d` is set, then
`Reflectance_Position m` is the negation of `Reflectance_Position d`. -/
theorem C2_position_mirror_negates (d m : Nat) (hd : d < 256) (hm : m < 256)
    (h0 : d ≠ 0) (hbits : ∀ i, i < 8 → m.testBit i = d.testBit (7 - i)) :
    Reflectance_Position m = (Reflectance_Position d).map (fun z => -z) := by
  have hmeq : m = mirror d := by
    apply Nat.eq_of_testBit_eq
    intro i
    by_cases hi : i < 8
    · rw [hbits i hi]
      exact (mirror_testBit ⟨d, hd⟩ ⟨i, hi⟩).symm
    · push_neg at hi
      have h2 : (256 : Nat) ≤ 2 ^ i :=
        le_trans (by norm_num : (256 : Nat) ≤ 2 ^ 8)
          (Nat.pow_le_pow_right (by norm_num) hi)
      rw [Nat.testBit_lt_two_pow (lt_of_lt_of_le hm h2),
        Nat.testBit_lt_two_pow (lt_of_lt_of_le (mirror_lt ⟨d, hd⟩) h2)]
  rw [hmeq]
  exact pos_mirror_aux ⟨d, hd⟩ h0

/-- Witness for C2 at the concrete pair `d = 1`, `m = 128`. -/
theorem C2_position_mirror_negates_witness :
    Reflectance_Position 128 = (Reflectance_Position 1).map (fun z => -z) :=
  C2_position_mirror_negates 1 128 (by decide) (by decide) (by decide)
    (by decide)

set_option maxRecDepth 4000 in
/-- C3: each single-bit snapshot returns exactly the corresponding
calibration weight; in particular bit 0 alone yields -33400 and bit 7 alone
yields +33400. -/
theorem C3_position_single_bit_weights :
    (∀ i : Fin 8, Reflectance_Position (2 ^ i.val) = some (w.getD i.val 0)) ∧
    Reflectance_Position 1 = some (-33400) ∧
    Reflectance_Position 128 = some 33400 := by decide

/-- C4: the all-bits-set snapshot 0xFF yields exactly 0. -/
theorem C4_position_all_bits_set_zero :
    Reflectance_Position 0xFF = some 0 := by decide

/-- C5: `Reflectance_Center` returns `(P7->IN & 0x18) >> 3`: 0 when neither
center bit (P7.3, P7.4) is set, 1 when only bit 3 is set, 2 when only bit 4
is set, 3 when both are set. -/
theorem C5_center_remaps_center_bits (t : Nat) (s : MCU) (h : s.p7in < 256) :
    (Reflectance_Center t s).fst = (s.p7in &&& 0x18) >>> 3 ∧
    ((Reflectance_Center t s).fst = 0 ↔
      (s.p7in.testBit 3 = false ∧ s.p7in.testBit 4 = false)) ∧
    ((Reflectance_Center t s).fst = 1 ↔
      (s.p7in.testBit 3 = true ∧ s.p7in.testBit 4 = false)) ∧
    ((Reflectance_Center t s).fst = 2 ↔
      (s.p7in.testBit 3 = false ∧ s.p7in.testBit 4 = true)) ∧
    ((Reflectance_Center t s).fst = 3 ↔
      (s.p7in.testBit 3 = true ∧ s.p7in.testBit 4 = true)) := by
  obtain ⟨h0, h1, h2, h3⟩ := center_code_aux ⟨s.p7in, h⟩
  exact ⟨rfl, h0, h1, h2, h3⟩

/-- Witness for C5 at a concrete device state with both center bits set. -/
theorem C5_center_remaps_center_bits_witness :
    sampleMCU.p7in < 256 ∧
    ((Reflectance_Center 1000 sampleMCU).fst =
      (sampleMCU.p7in &&& 0x18) >>> 3 ∧
    ((Reflectance_Center 1000 sampleMCU).fst = 0 ↔
      (sampleMCU.p7in.testBit 3 = false ∧ sampleMCU.p7in.testBit 4 = false)) ∧
    ((Reflectance_Center 1000 sampleMCU).fst = 1 ↔
      (sampleMCU.p7in.testBit 3 = true ∧ sampleMCU.p7in.testBit 4 = false)) ∧
    ((Reflectance_Center 1000 sampleMCU).fst = 2 ↔
      (sampleMCU.p7in.testBit 3 = false ∧ sampleMCU.p7in.testBit 4 = true)) ∧
    ((Reflectance_Center 1000 sampleMCU).fst = 3 ↔
      (sampleMCU.p7in.testBit 3 = true ∧ sampleMCU.p7in.testBit 4 = true))) :=
  ⟨by decide, C5_center_remaps_center_bits 1000 sampleMCU (by decide)⟩

/-- C6: calling `Reflectance_Start`, waiting `t` microseconds, then
`Reflectance_End` returns the same snapshot and the same final device state
(registers and delay trace) as a single `Reflectance_Read t`. -/
theorem C6_read_eq_start_wait_end (t : Nat) (s : MCU) :
    Reflectance_Read t s =
      Reflectance_End (Clock_Delay1us t (Reflectance_Start s)) := rfl

/-- C7 counterexample: the weight table is not evenly spaced - the first
gap is 9600 while the second is 9500 - so the claimed conjunction
(symmetry, constant consecutive difference, extremes ±33400) is false. -/
theorem C7_weights_not_evenly_spaced :
    ¬ ((∀ i : Fin 8, w.getD (7 - i.val) 0 = -(w.getD i.val 0)) ∧
       (∃ c : Int, ∀ i : Fin 7, w.getD (i.val + 1) 0 - w.getD i.val 0 = c) ∧
       w.getD 0 0 = -33400 ∧ w.getD 7 0 = 33400) := by
  rintro ⟨-, ⟨c, hc⟩, -, -⟩
  have h0 := hc 0
  have h1 := hc 1
  simp only [w, Fin.val_zero, Fin.val_one] at h0 h1
  norm_num at h0 h1
  omega

/-- C7 amended: the weight table is antisymmetric about zero
(w[7-i] = -w[i]) with extremes -33400 and +33400, but its consecutive
differences are not one constant: they are 9600, 9500, 9500, 9600, 9500,
9500, 9600. -/
theorem C7_weights_symmetric_extremes_uneven_gaps :
    (∀ i : Fin 8, w.getD (7 - i.val) 0 = -(w.getD i.val 0)) ∧
    (∀ i : Fin 7, w.getD (i.val + 1) 0 - w.getD i.val 0 =
      ([9600, 9500, 9500, 9600, 9500, 9500, 9600] : List Int).getD i.val 0) ∧
    ¬ (∀ i : Fin 7, w.getD (i.val + 1) 0 - w.getD i.val 0 =
      w.getD 1 0 - w.getD 0 0) ∧
    w.getD 0 0 = -33400 ∧ w.getD 7 0 = 33400 := by decide

/-- C8: `Bump_Read` is a stub: it returns 0 for every state of the bump
switch pins. -/
theorem C8_bump_read_returns_zero (s : BumpState) : Bump_Read s = 0 := rfl

/-- C9: on every nonzero 8-bit snapshot the position is defined and lies in
the closed interval [-33400, +33400]. -/
theorem C9_position_bounded (d : Nat) (hd : d < 256) (h0 : d ≠ 0) :
    ∃ z : Int, Reflectance_Position d = some z ∧
      -33400 ≤ z ∧ z ≤ 33400 := by
  obtain ⟨hs, h1, h2⟩ := pos_range_aux ⟨d, hd⟩ h0
  obtain ⟨z, hz⟩ := Option.isSome_iff_exists.mp hs
  rw [hz] at h1 h2
  simp only [Option.getD_some] at h1 h2
  exact ⟨z, hz, h1, h2⟩

/-- Witness for C9 at the concrete snapshot 0b10000001. -/
theorem C9_position_bounded_witness :
    ∃ z : Int, Reflectance_Position 129 = some z ∧
      -33400 ≤ z ∧ z ≤ 33400 :=
  C9_position_bounded 129 (by decide) (by decide)

/-- C10: `BumpInt_Init` changes only the bit positions of mask 0xED in the
Port 4 registers SEL0, SEL1, DIR, REN, OUT, IES, IFG and IE: every bit
position below 8 outside the mask (bits 1 and 4) is unchanged in each of
those eight registers. -/
theorem C10_bumpint_init_preserves_non_mask_bits (s : BumpState) (k : Nat)
    (hk : k < 8) (hmask : Nat.testBit 0xED k = false) :
    (BumpInt_Init s).p4sel0.testBit k = s.p4sel0.testBit k ∧
    (BumpInt_Init s).p4sel1.testBit k = s.p4sel1.testBit k ∧
    (BumpInt_Init s).p4dir.testBit k = s.p4dir.testBit k ∧
    (BumpInt_Init s).p4ren.testBit k = s.p4ren.testBit k ∧
    (BumpInt_Init s).p4out.testBit k = s.p4out.testBit k ∧
    (BumpInt_Init s).p4ies.testBit k = s.p4ies.testBit k ∧
    (BumpInt_Init s).p4ifg.testBit k = s.p4ifg.testBit k ∧
    (BumpInt_Init s).p4ie.testBit k = s.p4ie.testBit k := by
  have hk14 : k = 1 ∨ k = 4 := by
    interval_cases k
    · exact absurd hmask (by decide)
    · exact Or.inl rfl
    · exact absurd hmask (by decide)
    · exact absurd hmask (by decide)
    · exact Or.inr rfl
    · exact absurd hmask (by decide)
    · exact absurd hmask (by decide)
    · exact absurd hmask (by decide)
  obtain rfl | rfl := hk14 <;>
    exact ⟨testBit_and_eq _ (by decide), testBit_and_eq _ (by decide),
      testBit_and_eq _ (by decide), testBit_or_eq _ (by decide),
      testBit_or_eq _ (by decide), testBit_or_eq _ (by decide),
      testBit_and_eq _ (by decide), testBit_or_eq _ (by decide)⟩

/-- Witness for C10 at a concrete Port 4 state and bit position 1. -/
theorem C10_bumpint_init_preserves_non_mask_bits_witness :
    (1 < 8 ∧ Nat.testBit 0xED 1 = false) ∧
    ((BumpInt_Init sampleBump).p4sel0.testBit 1 = sampleBump.p4sel0.testBit 1 ∧
    (BumpInt_Init sampleBump).p4sel1.testBit 1 = sampleBump.p4sel1.testBit 1 ∧
    (BumpInt_Init sampleBump).p4dir.testBit 1 = sampleBump.p4dir.testBit 1 ∧
    (BumpInt_Init sampleBump).p4ren.testBit 1 = sampleBump.p4ren.testBit 1 ∧
    (BumpInt_Init sampleBump).p4out.testBit 1 = sampleBump.p4out.testBit 1 ∧
    (BumpInt_Init sampleBump).p4ies.testBit 1 = sampleBump.p4ies.testBit 1 ∧
    (BumpInt_Init sampleBump).p4ifg.testBit 1 = sampleBump.p4ifg.testBit 1 ∧
    (BumpInt_Init sampleBump).p4ie.testBit 1 = sampleBump.p4ie.testBit 1) :=
  ⟨⟨by decide, by decide⟩,
    C10_bumpint_init_preserves_non_mask_bits sampleBump 1 (by decide)
      (by decide)⟩

end LineFollower
